import Mathlib

/-!
# SNS buzz map pipeline — verification of the spec against the code

Shallow embedding of the five Lambda functions of the repository
(`InstagramCrawlFunction.py`, `InstagramExtractFunction.py`,
`YoutubeExtractFunction.py`, `GeoCodeingFunction.py`) in Lean 4.

Modelling conventions:
* Python scalar values appearing in unmarshalled DynamoDB items are the
  inductive `PyVal` (strings, ints, floats, nested dicts).  Python floats
  are modelled as exact rationals `ℚ`; none of the verified claims depends
  on binary floating-point rounding.
* Python dicts are association lists in insertion order; `dget` looks a
  key up with Python's last-assignment-wins semantics.
* A Python function that can raise an exception which propagates is
  embedded as `Except Unit`; one whose exceptions are caught and turned
  into a `None`/`False` result is embedded as `Option`.
* `datetime.fromisoformat` (including the `'Z' → '+00:00'` replacement) is
  abstracted as a parameter `parseIso : String → Option ℚ` giving epoch
  seconds; `none` models a raised `ValueError`.
* Network services (Gemini, Amazon Location) are abstracted as oracle
  functions passed to the embedded code.
-/

set_option autoImplicit false

namespace BuzzMap

/-- A Python value as produced by the unmarshalling helpers:
a string, an `int`, a `float` (exact rational model), or a nested dict. -/
inductive PyVal where
  | str (s : String)
  | int (n : ℤ)
  | float (q : ℚ)
  | dict (m : List (String × PyVal))

/-- Python truthiness of a `PyVal` (`bool(v)`). -/
def pyTruthyV : PyVal → Bool
  | .str s => !s.isEmpty
  | .int n => n != 0
  | .float q => q != 0
  | .dict m => !m.isEmpty

/-- Python truthiness of an optional value (`None` is falsy). -/
def pyTruthy : Option PyVal → Bool
  | none => false
  | some v => pyTruthyV v

/-- Dict lookup, last assignment wins — the semantics of repeatedly
executing `data[key] = ...` over an association list in order. -/
def dget (d : List (String × PyVal)) (k : String) : Option PyVal :=
  d.foldl (fun acc p => if p.1 = k then some p.2 else acc) none

/-- `str(v)` as used inside f-strings.  The Python `repr` of a container
is abstracted (no claim evaluates it on a dict). -/
def pyStr : PyVal → String
  | .str s => s
  | .int n => toString n
  | .float q => toString q
  | .dict _ => "dict"

/-- Numeric view of a value: Python arithmetic on a non-number raises. -/
def pyNum : PyVal → Option ℚ
  | .int n => (n : ℚ)
  | .float q => q
  | _ => none

/-- Parse a list of decimal digits; `none` when empty or not all digits. -/
def digitsToNat (l : List Char) : Option ℕ :=
  if !l.isEmpty && l.all Char.isDigit then
    some (l.foldl (fun a c => 10 * a + (c.toNat - 48)) 0)
  else none

/-- Python `int(s)` on a plain decimal numeral (optional leading minus);
`none` models the `ValueError` on anything else, in particular on a
string containing a decimal point. -/
def parsePyInt (s : String) : Option ℤ :=
  match s.data with
  | '-' :: rest => (digitsToNat rest).map (fun n => -(n : ℤ))
  | l => (digitsToNat l).map (fun n => (n : ℤ))

/-- Split a character list on every occurrence of `c`. -/
def splitOnChar (c : Char) : List Char → List (List Char)
  | [] => [[]]
  | x :: xs =>
    let r := splitOnChar c xs
    if x = c then [] :: r
    else
      match r with
      | h :: t => (x :: h) :: t
      | [] => [[x]]

/-- Python `float(s)` on a plain decimal numeral with an optional single
decimal point (optional leading minus); `none` models `ValueError`. -/
def parsePyFloat (s : String) : Option ℚ :=
  match splitOnChar '.' s.data with
  | [a] => (parsePyInt ⟨a⟩).map (fun n => (n : ℚ))
  | [a, b] =>
    match a, digitsToNat b with
    | '-' :: arest, some fb =>
      (digitsToNat arest).map
        (fun na => -((na : ℚ) + (fb : ℚ) / 10 ^ b.length))
    | adigits, some fb =>
      (digitsToNat adigits).map
        (fun na => (na : ℚ) + (fb : ℚ) / 10 ^ b.length)
    | _, none => none
  | _ => none

/-- A DynamoDB Streams attribute value: tagged string, tagged numeric
string, tagged nested map, or a tag the unmarshallers do not handle. -/
inductive Attr where
  | S (v : String)
  | N (v : String)
  | M (m : List (String × Attr))
  | untagged

namespace Insta

/-- `unmarshal_dynamodb_json` of `InstagramExtractFunction.py`: `S` passes
through, `N` is always converted with `int(...)` (a `ValueError` on a
non-integer numeral propagates: `.error`), non-empty `M` recurses,
anything else is omitted. -/
def unmarshal_dynamodb_json : List (String × Attr) → Except Unit (List (String × PyVal))
  | [] => .ok []
  | (k, .S v) :: rest =>
    match unmarshal_dynamodb_json rest with
    | .ok d => .ok ((k, .str v) :: d)
    | .error e => .error e
  | (k, .N s) :: rest =>
    match parsePyInt s with
    | some n =>
      match unmarshal_dynamodb_json rest with
      | .ok d => .ok ((k, .int n) :: d)
      | .error e => .error e
    | none => .error ()
  | (k, .M m) :: rest =>
    if m.isEmpty then unmarshal_dynamodb_json rest
    else
      match unmarshal_dynamodb_json m with
      | .ok inner =>
        match unmarshal_dynamodb_json rest with
        | .ok d => .ok ((k, .dict inner) :: d)
        | .error e => .error e
      | .error e => .error e
  | (_, .untagged) :: rest => unmarshal_dynamodb_json rest
termination_by l => sizeOf l
decreasing_by all_goals (simp_wf; try omega)

end Insta

namespace Yt

/-- `unmarshal_dynamodb_json` of `YoutubeExtractFunction.py`: like the
Instagram one but `N` is `int(s)` when `s` has no `'.'` and `float(s)`
otherwise (a `ValueError` propagates: `.error`). -/
def unmarshal_dynamodb_json : List (String × Attr) → Except Unit (List (String × PyVal))
  | [] => .ok []
  | (k, .S v) :: rest =>
    match unmarshal_dynamodb_json rest with
    | .ok d => .ok ((k, .str v) :: d)
    | .error e => .error e
  | (k, .N s) :: rest =>
    if s.data.contains '.' then
      match parsePyFloat s with
      | some q =>
        match unmarshal_dynamodb_json rest with
        | .ok d => .ok ((k, .float q) :: d)
        | .error e => .error e
      | none => .error ()
    else
      match parsePyInt s with
      | some n =>
        match unmarshal_dynamodb_json rest with
        | .ok d => .ok ((k, .int n) :: d)
        | .error e => .error e
      | none => .error ()
  | (k, .M m) :: rest =>
    if m.isEmpty then unmarshal_dynamodb_json rest
    else
      match unmarshal_dynamodb_json m with
      | .ok inner =>
        match unmarshal_dynamodb_json rest with
        | .ok d => .ok ((k, .dict inner) :: d)
        | .error e => .error e
      | .error e => .error e
  | (_, .untagged) :: rest => unmarshal_dynamodb_json rest
termination_by l => sizeOf l
decreasing_by all_goals (simp_wf; try omega)

end Yt

namespace Geo

/-- `unmarshal_dynamodb_json` of `GeoCodeingFunction.py` — textually the
same algorithm as the YouTube extractor's helper. -/
def unmarshal_dynamodb_json : List (String × Attr) → Except Unit (List (String × PyVal))
  | [] => .ok []
  | (k, .S v) :: rest =>
    match unmarshal_dynamodb_json rest with
    | .ok d => .ok ((k, .str v) :: d)
    | .error e => .error e
  | (k, .N s) :: rest =>
    if s.data.contains '.' then
      match parsePyFloat s with
      | some q =>
        match unmarshal_dynamodb_json rest with
        | .ok d => .ok ((k, .float q) :: d)
        | .error e => .error e
      | none => .error ()
    else
      match parsePyInt s with
      | some n =>
        match unmarshal_dynamodb_json rest with
        | .ok d => .ok ((k, .int n) :: d)
        | .error e => .error e
      | none => .error ()
  | (k, .M m) :: rest =>
    if m.isEmpty then unmarshal_dynamodb_json rest
    else
      match unmarshal_dynamodb_json m with
      | .ok inner =>
        match unmarshal_dynamodb_json rest with
        | .ok d => .ok ((k, .dict inner) :: d)
        | .error e => .error e
      | .error e => .error e
  | (_, .untagged) :: rest => unmarshal_dynamodb_json rest
termination_by l => sizeOf l
decreasing_by all_goals (simp_wf; try omega)

end Geo

/-! ## Shared arithmetic and extraction-result helpers -/

/-- Python `int(x)` on a float: truncation toward zero. -/
def pyInt (x : ℚ) : ℤ := if x < 0 then ⌈x⌉ else ⌊x⌋

/-- The spec's `clamp(x, lo, hi)` (inclusive on both ends), written in the
`min`-outermost form to be compared with the code's `max(lo, min(hi, x))`. -/
def specClamp (x lo hi : ℚ) : ℚ := min hi (max lo x)

/-- The spec's Instagram buzz formula:
`elapsedDays` floored to a minimum of `0.01`, then
`int(clamp(likeCount / elapsedDays / 100, 1, 5))`. -/
def specInstaBuzz (likeCount elapsedDays : ℚ) : ℤ :=
  pyInt (specClamp (likeCount / max (1 / 100) elapsedDays / 100) 1 5)

/-- The spec's YouTube buzz formula:
`elapsedHours` floored to a minimum of `1.0`, then
`int(clamp(100 * viewCount / (subscriberCount * elapsedHours), 1, 5))`. -/
def specYtBuzz (views subs elapsedHours : ℚ) : ℤ :=
  pyInt (specClamp (100 * views / (subs * max 1 elapsedHours)) 1 5)

/-- The JSON object parsed from the model's answer, restricted to the two
fields the pipeline reads.  The outer `Option` is key presence, the inner
`Option` is an explicit JSON `null` versus a string value. -/
structure Extracted where
  placeName : Option (Option String)
  address : Option (Option String)

/-- `extracted_data.get(field, 'N/A')`: the default fires only when the
key is absent; an explicit `null` value passes through unchanged. -/
def getOrNA : Option (Option String) → Option String
  | none => some "N/A"
  | some v => v

/-! ## Gemini call with exponential backoff

`call_gemini_for_extraction` appears in both extractor files with the same
retry logic (`MAX_RETRIES = 5`, `INITIAL_BACKOFF_TIME = 10`); only the
prompt differs, which is absorbed into the outcome oracle.  The outcome of
the `attempt`-th `generate_content` + `json.loads` round trip is:
`success v` (parsed object `v`), `rateLimit` (an exception whose text
contains `"TooManyRequests"` or carrying HTTP status 429), or `failure`
(any other exception, including a JSON parse error). -/

/-- Outcome of one Gemini API attempt. -/
inductive GeminiOutcome where
  | success (v : Extracted)
  | rateLimit
  | failure

def MAX_RETRIES : ℕ := 5

def INITIAL_BACKOFF_TIME : ℚ := 10

/-- The `for attempt in range(MAX_RETRIES)` loop: returns the parsed
object (or `none`), the number of API calls made, and the list of backoff
sleeps performed (`10 * 2 ** attempt + random.uniform(0, 1)`, the jitter
abstracted as an oracle). -/
def geminiLoop (outcome : ℕ → GeminiOutcome) (jitter : ℕ → ℚ) :
    ℕ → ℕ → Option Extracted × ℕ × List ℚ
  | 0, _ => (none, 0, [])
  | fuel + 1, attempt =>
    match outcome attempt with
    | .success v => (some v, 1, [])
    | .failure => (none, 1, [])
    | .rateLimit =>
      let r := geminiLoop outcome jitter fuel (attempt + 1)
      (r.1, r.2.1 + 1, (INITIAL_BACKOFF_TIME * 2 ^ attempt + jitter attempt) :: r.2.2)

/-- `call_gemini_for_extraction`: immediately `None` when the Gemini
client is not configured, otherwise the retry loop from attempt 0. -/
def call_gemini_for_extraction (clientConfigured : Bool)
    (outcome : ℕ → GeminiOutcome) (jitter : ℕ → ℚ) : Option Extracted × ℕ × List ℚ :=
  if clientConfigured then geminiLoop outcome jitter MAX_RETRIES 0 else (none, 0, [])

namespace Insta

/-- The item `save_to_target_db` writes to the SemifinalDB table. -/
structure Item where
  postId : PyVal
  platform : String
  url : PyVal
  title : PyVal
  placeName : Option String
  address : Option String
  buzz : ℤ
  fetchedAt : PyVal

/-- The `item = {...}` dict literal of `save_to_target_db` together with
the `put_item` call: direct indexing of `media_id`, `permalink` and
`caption` raises `KeyError` when absent, which the surrounding
`except Exception` turns into `False` (no write, modelled `none`).
`fetchedAt` is `datetime.now(timezone.utc).isoformat()`, passed as `now`. -/
def mkItem (original : List (String × PyVal)) (extracted : Extracted)
    (buzz : ℤ) (now : String) : Option Item :=
  match dget original "media_id", dget original "permalink", dget original "caption" with
  | some mid, some url, some cap =>
    some ⟨mid, "Instagram", url, cap,
      getOrNA extracted.placeName, getOrNA extracted.address, buzz, .str now⟩
  | _, _, _ => none

/-- The `buzz_score` computation of `save_to_target_db` (the code up to
and including `int(buzz_score)`).  `likes = get("like_count", 0)`; when
both timestamps are truthy they must be ISO strings (`.replace` on a
non-string raises) and parse (`fromisoformat` raises otherwise);
`elapsed_days` is floored at `0.01`;
`buzz = int(max(1, min(5, likes / elapsed_days / 100.0)))`; with a
missing/falsy timestamp, `buzz_score = 1`.  `none` is a caught
exception (no write). -/
def buzzCalc (parseIso : String → Option ℚ)
    (original : List (String × PyVal)) : Option ℤ :=
  let ts := dget original "timestamp"
  let cs := dget original "crawled_at"
  if pyTruthy ts && pyTruthy cs then
    match ts, cs with
    | some (.str tss), some (.str css) =>
      match parseIso css, parseIso tss with
      | some dtCrawled, some dtPosted =>
        match (dget original "like_count").elim (some (0 : ℚ)) pyNum with
        | some likes =>
          let elapsedDays0 := (dtCrawled - dtPosted) / (24 * 3600)
          let elapsedDays := if elapsedDays0 < 1 / 100 then 1 / 100 else elapsedDays0
          some (pyInt (max 1 (min 5 (likes / elapsedDays / 100))))
        | none => none
      | _, _ => none
    | _, _ => none
  else
    some (pyInt 1)

/-- `save_to_target_db` of `InstagramExtractFunction.py`: the buzz
computation followed by the item construction and `put_item`; any caught
exception in either part gives `False` (no write, `none`). -/
def save_to_target_db (parseIso : String → Option ℚ) (now : String)
    (original : List (String × PyVal)) (extracted : Extracted) : Option Item :=
  (buzzCalc parseIso original).bind (fun b => mkItem original extracted b now)

end Insta

namespace Yt

/-- The item `save_to_semifinal_db` writes to the SemiFinalDB table. -/
structure Item where
  postId : PyVal
  platform : String
  url : PyVal
  title : PyVal
  placeName : Option String
  address : Option String
  buzz : ℤ
  fetchedAt : PyVal

/-- The `item = {...}` dict literal of `save_to_semifinal_db` together
with the `put_item` call: direct indexing of `videoId`, `url`, `title`
and — for `fetchedAt` — `crawled_at` raises `KeyError` when absent,
caught by the surrounding handler (no write, modelled `none`). -/
def mkItem (original : List (String × PyVal)) (extracted : Extracted)
    (buzz : ℤ) : Option Item :=
  match dget original "videoId", dget original "url", dget original "title",
      dget original "crawled_at" with
  | some vid, some url, some title, some cr =>
    some ⟨vid, "Youtube", url, title,
      getOrNA extracted.placeName, getOrNA extracted.address, buzz, cr⟩
  | _, _, _, _ => none

/-- The `buzz_score` computation of `save_to_semifinal_db` (the code
up to and including `int(buzz_score)`).  `views = get("views", 0)`,
`subscribers = get("subscriber_count", 1)`; the guard is
`published_at_str and crawled_at_str and subscribers > 0` (short-circuit:
the numeric comparison only runs when both timestamps are truthy, and
raises on a non-number); `elapsed_hours` floored at `1.0`;
`buzz = int(max(1, min(5, 100.0 * views / (subscribers * elapsed_hours))))`;
otherwise `buzz_score = 1`.  `none` is a caught exception (no write). -/
def buzzCalc (parseIso : String → Option ℚ)
    (original : List (String × PyVal)) : Option ℤ :=
  let ps := dget original "published_at"
  let cs := dget original "crawled_at"
  if pyTruthy ps && pyTruthy cs then
    match (dget original "subscriber_count").elim (some (1 : ℚ)) pyNum with
    | some subs =>
      if subs > 0 then
        match ps, cs with
        | some (.str pss), some (.str css) =>
          match parseIso css, parseIso pss with
          | some dtCrawled, some dtPublished =>
            match (dget original "views").elim (some (0 : ℚ)) pyNum with
            | some views =>
              let elapsedHours0 := (dtCrawled - dtPublished) / 3600
              let elapsedHours := if elapsedHours0 < 1 then 1 else elapsedHours0
              some (pyInt (max 1 (min 5 (100 * views / (subs * elapsedHours)))))
            | none => none
          | _, _ => none
        | _, _ => none
      else
        some (pyInt 1)
    | none => none
  else
    some (pyInt 1)

/-- `save_to_semifinal_db` of `YoutubeExtractFunction.py`: the buzz
computation followed by the item construction and `put_item`; any caught
exception in either part prevents the write (`none`). -/
def save_to_semifinal_db (parseIso : String → Option ℚ)
    (original : List (String × PyVal)) (extracted : Extracted) : Option Item :=
  (buzzCalc parseIso original).bind (fun b => mkItem original extracted b)

end Yt

/-! ## Geocoding function -/

namespace Geo

/-- Configuration state of `GeoCodeingFunction.py`: truthiness of
`LOCATION_CLIENT` and of `PLACE_INDEX_NAME`. -/
structure GeoCfg where
  clientConfigured : Bool
  indexConfigured : Bool

/-- Response of `search_place_index_for_text`, abstracted to the list of
`Results[i].Place.Geometry.Point` coordinate lists; `err` is any raised
`ClientError`/other exception. -/
inductive ProviderResp where
  | err
  | ok (results : List (List ℚ))

/-- The `{"lng": point[0], "lat": point[1]}` dict built by
`geocode_address`. -/
structure Coords where
  lng : ℚ
  lat : ℚ

/-- `address in ['N/A', 'null']` — Python `==` against the two sentinel
strings (only a string can compare equal). -/
def isNullSentinel : PyVal → Bool
  | .str s => s == "N/A" || s == "null"
  | _ => false

/-- `address_to_geocode not in ['N/A', 'null', None]` (negated):
membership of the looked-up value in the sentinel list. -/
def inNullList : Option PyVal → Bool
  | none => true
  | some v => isNullSentinel v

/-- `geocode_address` of `GeoCodeingFunction.py`.  Returns the coordinate
dict (or `none`) together with the number of provider calls made.  The
short-circuit guard is, in source order: unconfigured client, falsy
address, sentinel address, unconfigured place index — all return `None`
with no network call.  A provider exception, an empty `Results` list, or
a malformed point (`IndexError`, caught) also give `None`. -/
def geocode_address (cfg : GeoCfg) (provider : PyVal → ProviderResp)
    (address : PyVal) : Option Coords × ℕ :=
  if !cfg.clientConfigured || !pyTruthyV address || isNullSentinel address
      || !cfg.indexConfigured then
    (none, 0)
  else
    match provider address with
    | .err => (none, 1)
    | .ok [] => (none, 1)
    | .ok (pt :: _) =>
      match pt.get? 0, pt.get? 1 with
      | some lng, some lat => (some ⟨lng, lat⟩, 1)
      | _, _ => (none, 1)

/-- The item `save_to_final_db` writes to the FinalDB table.
`lat`/`lng` carry `Decimal(str(...))` of the geocode result, which is the
identity in the exact-rational model. -/
structure FinalItem where
  postId : PyVal
  platform : PyVal
  url : PyVal
  title : PyVal
  fetchedAt : PyVal
  placeName : PyVal
  address : PyVal
  lat : ℚ
  lng : ℚ
  buzz : PyVal

/-- `save_to_final_db`: direct indexing of `postId`, `platform`, `url`,
`title`, `fetchedAt` (a `KeyError` is caught — no write, `none`);
`placeName`/`address` default to `'N/A'` and `buzz` to `0` via `.get`. -/
def save_to_final_db (data : List (String × PyVal)) (coords : Coords) : Option FinalItem :=
  match dget data "postId", dget data "platform", dget data "url",
      dget data "title", dget data "fetchedAt" with
  | some pid, some plat, some url, some title, some fet =>
    some ⟨pid, plat, url, title, fet,
      (dget data "placeName").getD (.str "N/A"),
      (dget data "address").getD (.str "N/A"),
      coords.lat, coords.lng,
      (dget data "buzz").getD (.int 0)⟩
  | _, _, _, _, _ => none

end Geo

/-- A DynamoDB Streams event record: `eventName` and
`record['dynamodb']['NewImage']`. -/
structure StreamRecord where
  eventName : String
  newImage : List (String × Attr)

namespace Geo

/-- One iteration of the `for record in event['Records']` loop of the
geocoder's `lambda_handler`: unmarshal (a `ValueError` propagates and
crashes the invocation), guard on truthy `postId` and truthy,
non-sentinel `address`, geocode, and write on success.  Returns the item
written for this record, if any. -/
def processRecord (cfg : GeoCfg) (provider : PyVal → ProviderResp)
    (r : StreamRecord) : Except Unit (Option FinalItem) :=
  if r.eventName == "INSERT" || r.eventName == "MODIFY" then
    match unmarshal_dynamodb_json r.newImage with
    | .error e => .error e
    | .ok d =>
      let rid := dget d "postId"
      let addr := dget d "address"
      if pyTruthy rid && pyTruthy addr && !inNullList addr then
        match addr with
        | some a =>
          match (geocode_address cfg provider a).1 with
          | some coords => .ok (save_to_final_db d coords)
          | none => .ok none
        | none => .ok none
      else
        .ok none
  else
    .ok none

/-- The geocoder's `lambda_handler` over a batch (clients assumed
initialized — otherwise the function returns 500 before the loop):
the list of items written to FinalDB, in order. -/
def lambda_handler (cfg : GeoCfg) (provider : PyVal → ProviderResp) :
    List StreamRecord → Except Unit (List FinalItem)
  | [] => .ok []
  | r :: rest =>
    match processRecord cfg provider r with
    | .error e => .error e
    | .ok w =>
      match lambda_handler cfg provider rest with
      | .error e => .error e
      | .ok ws => .ok (match w with | some i => i :: ws | none => ws)

end Geo

/-! ## Instagram crawler (caption persistence) -/

namespace Crawl

/-- `.replace('\n', ' ')` on the caption string, character by character. -/
def replaceNewlines (s : String) : String :=
  ⟨s.data.map (fun c => if c = '\n' then ' ' else c)⟩

/-- The `caption` field of the item built by `save_to_dynamodb` of
`InstagramCrawlFunction.py`: `media_item.get('caption', ' ').replace('\n', ' ')`
— the single-space default fires only when the `caption` key is absent. -/
def storedCaption : Option String → String
  | none => " "
  | some s => replaceNewlines s

/-- The media JSON fields the crawler reads from the Graph API. -/
structure MediaJson where
  id : Option String
  permalink : Option String
  caption : Option String
  timestamp : Option String
  like_count : Option ℤ
  comments_count : Option ℤ
  media_type : Option String

/-- The item written by the crawler's `save_to_dynamodb` (the
`crawled_at` timestamp is passed in as `now`). -/
structure CrawlItem where
  media_id : Option String
  permalink : Option String
  caption : String
  timestamp : Option String
  like_count : ℤ
  comments_count : ℤ
  media_type : Option String
  crawled_at : String

/-- `save_to_dynamodb` of `InstagramCrawlFunction.py`, item construction. -/
def save_to_dynamodb (m : MediaJson) (now : String) : CrawlItem :=
  ⟨m.id, m.permalink, storedCaption m.caption, m.timestamp,
    m.like_count.getD 0, m.comments_count.getD 0, m.media_type, now⟩

end Crawl

/-! ## Extractor lambda handlers

The Gemini round trip is abstracted at the handler level as an oracle
`gem : String → Option Extracted` from the prompt `contents` string to
the final result of `call_gemini_for_extraction` (`none` covers retry
exhaustion, a non-rate-limit failure, and a falsy parsed object, any of
which make the handler skip the save).  Each handler also counts how many
times the extraction helper is invoked. -/

namespace Insta

/-- One iteration of the Instagram extractor's `lambda_handler` loop:
only `INSERT`/`MODIFY` records; unmarshal (a `ValueError` propagates);
the save runs only when `media_id` and `caption` are truthy and the
extraction result is truthy.  Returns (number of extraction calls,
item written if any). -/
def processRecord (gem : String → Option Extracted) (parseIso : String → Option ℚ)
    (now : String) (r : StreamRecord) : Except Unit (ℕ × Option Item) :=
  if r.eventName == "INSERT" || r.eventName == "MODIFY" then
    match unmarshal_dynamodb_json r.newImage with
    | .error e => .error e
    | .ok d =>
      let mid := dget d "media_id"
      let cap := dget d "caption"
      if pyTruthy mid && pyTruthy cap then
        match cap with
        | some capv =>
          match gem ("TEXT: " ++ pyStr capv) with
          | some e => .ok (1, save_to_target_db parseIso now d e)
          | none => .ok (1, none)
        | none => .ok (1, none)
      else
        .ok (0, none)
  else
    .ok (0, none)

/-- The Instagram extractor's `lambda_handler` over a batch (clients
assumed initialized): total extraction calls and items written in order. -/
def lambda_handler (gem : String → Option Extracted) (parseIso : String → Option ℚ)
    (now : String) : List StreamRecord → Except Unit (ℕ × List Item)
  | [] => .ok (0, [])
  | r :: rest =>
    match processRecord gem parseIso now r with
    | .error e => .error e
    | .ok p =>
      match lambda_handler gem parseIso now rest with
      | .error e => .error e
      | .ok q => .ok (p.1 + q.1, match p.2 with | some i => i :: q.2 | none => q.2)

end Insta

namespace Yt

/-- One iteration of the YouTube extractor's `lambda_handler` loop:
only `INSERT`/`MODIFY` records; unmarshal (a `ValueError` propagates);
the extraction text is built from `title`/`description` with `''`
defaults, and the extraction helper is invoked unconditionally; the save
runs only when the extraction result is truthy. -/
def processRecord (gem : String → Option Extracted) (parseIso : String → Option ℚ)
    (r : StreamRecord) : Except Unit (ℕ × Option Item) :=
  if r.eventName == "INSERT" || r.eventName == "MODIFY" then
    match unmarshal_dynamodb_json r.newImage with
    | .error e => .error e
    | .ok d =>
      let text := "Title: " ++ pyStr ((dget d "title").getD (.str ""))
        ++ "\n" ++ "Description: " ++ pyStr ((dget d "description").getD (.str ""))
      match gem text with
      | some e => .ok (1, save_to_semifinal_db parseIso d e)
      | none => .ok (1, none)
  else
    .ok (0, none)

/-- The YouTube extractor's `lambda_handler` over a batch (clients
assumed initialized): total extraction calls and items written in order. -/
def lambda_handler (gem : String → Option Extracted) (parseIso : String → Option ℚ) :
    List StreamRecord → Except Unit (ℕ × List Item)
  | [] => .ok (0, [])
  | r :: rest =>
    match processRecord gem parseIso r with
    | .error e => .error e
    | .ok p =>
      match lambda_handler gem parseIso rest with
      | .error e => .error e
      | .ok q => .ok (p.1 + q.1, match p.2 with | some i => i :: q.2 | none => q.2)

end Yt

/-! ## Helper lemmas -/

lemma clamp_max_min (x : ℚ) : max 1 (min 5 x) = specClamp x 1 5 := by
  rw [specClamp, max_min_distrib_left]
  norm_num

lemma floor_ite_eq_max (x c : ℚ) : (if x < c then c else x) = max c x := by
  rcases lt_or_le x c with h | h
  · simp [h, max_eq_left h.le]
  · simp [not_lt.2 h, max_eq_right h]

lemma pyInt_one : pyInt 1 = 1 := by
  norm_num [pyInt]

/-- The geocoder never produces a coordinate pair when its own
short-circuit guard fires. -/
lemma geocode_address_guard (cfg : Geo.GeoCfg) (provider : PyVal → Geo.ProviderResp)
    (address : PyVal) (c : Geo.Coords) (n : ℕ)
    (h : Geo.geocode_address cfg provider address = (some c, n)) :
    cfg.clientConfigured = true ∧ pyTruthyV address = true
      ∧ Geo.isNullSentinel address = false ∧ cfg.indexConfigured = true := by
  rw [Geo.geocode_address] at h
  split at h
  · exact absurd h (by simp)
  · rename_i hg
    simp only [Bool.or_eq_true, Bool.not_eq_true', not_or, Bool.not_eq_false] at hg
    exact ⟨hg.1.1.1, hg.1.1.2, Bool.eq_false_iff.mpr hg.1.2, hg.2⟩

/-! ## Claim theorems -/

/-- C7: `geocode_address` returns null with no provider call when the
address is the empty string, the sentinel `"N/A"` or `"null"`, or the
Location client / place index is unconfigured; and it returns null
(without raising) on a provider error or an empty result set. -/
theorem geocode_null_short_circuit (cfg : Geo.GeoCfg)
    (provider : PyVal → Geo.ProviderResp) (address : PyVal) :
    ((address = PyVal.str "" ∨ address = PyVal.str "N/A" ∨ address = PyVal.str "null"
        ∨ cfg.clientConfigured = false ∨ cfg.indexConfigured = false) →
      Geo.geocode_address cfg provider address = (none, 0))
    ∧ (provider address = .err →
      (Geo.geocode_address cfg provider address).1 = none)
    ∧ (provider address = .ok [] →
      (Geo.geocode_address cfg provider address).1 = none) := by
  refine ⟨fun h => ?_, fun h => ?_, fun h => ?_⟩
  · have hg : (!cfg.clientConfigured || !pyTruthyV address
        || Geo.isNullSentinel address || !cfg.indexConfigured) = true := by
      rcases h with h | h | h | h | h
      · subst h; simp [pyTruthyV, show "".isEmpty = true from rfl]
      · subst h; simp [Geo.isNullSentinel]
      · subst h; simp [Geo.isNullSentinel]
      · simp [h]
      · simp [h]
    rw [Geo.geocode_address, if_pos hg]
  · rw [Geo.geocode_address]
    split
    · rfl
    · rw [h]
  · rw [Geo.geocode_address]
    split
    · rfl
    · rw [h]

/-- Witness for C7 at the sentinel address `"N/A"`. -/
theorem geocode_null_short_circuit_witness :
    Geo.geocode_address ⟨true, true⟩ (fun _ => .ok []) (PyVal.str "N/A") = (none, 0) :=
  (geocode_null_short_circuit ⟨true, true⟩ (fun _ => .ok []) (PyVal.str "N/A")).1
    (Or.inr (Or.inl rfl))

/-- C8: a successful provider response point is read as
`(longitude, latitude)`: index 0 becomes `lng` and index 1 becomes `lat`,
never swapped. -/
theorem geocode_point_ordering (cfg : Geo.GeoCfg)
    (provider : PyVal → Geo.ProviderResp) (address : PyVal)
    (x y : ℚ) (ptRest : List ℚ) (more : List (List ℚ)) :
    cfg.clientConfigured = true → cfg.indexConfigured = true →
    pyTruthyV address = true → Geo.isNullSentinel address = false →
    provider address = .ok ((x :: y :: ptRest) :: more) →
    Geo.geocode_address cfg provider address
      = (some { lng := x, lat := y }, 1) := by
  intro hc hi ht hs hp
  rw [Geo.geocode_address, if_neg (by simp [hc, hi, ht, hs]), hp]
  simp

/-- Witness for C8: the provider point `[139.70, 35.65]` yields
`lng = 139.70`, `lat = 35.65`. -/
theorem geocode_point_ordering_witness :
    Geo.geocode_address ⟨true, true⟩
        (fun _ => .ok [[(1397 : ℚ) / 10, (713 : ℚ) / 20]]) (PyVal.str "Tokyo")
      = (some { lng := (1397 : ℚ) / 10, lat := (713 : ℚ) / 20 }, 1) :=
  geocode_point_ordering ⟨true, true⟩ _ (PyVal.str "Tokyo")
    ((1397 : ℚ) / 10) ((713 : ℚ) / 20) [] [] rfl rfl (by decide) (by decide) rfl

/-- The retry loop never makes more calls than it has attempts left. -/
lemma geminiLoop_calls_le (outcome : ℕ → GeminiOutcome) (jitter : ℕ → ℚ) :
    ∀ fuel attempt, (geminiLoop outcome jitter fuel attempt).2.1 ≤ fuel := by
  intro fuel
  induction fuel with
  | zero => intro attempt; simp [geminiLoop]
  | succ n ih =>
    intro attempt
    rw [geminiLoop]
    cases outcome attempt with
    | success v => simp
    | failure => simp
    | rateLimit => simpa using ih (attempt + 1)

/-- C3: the extraction helper makes at most 5 attempts; after a
rate-limit failure at attempt `i` it sleeps `10 * 2 ^ i + jitter i`
seconds and retries; a non-rate-limit failure returns null immediately;
5 exhausted rate-limit attempts return null.  Two rate limits followed by
a success give the parsed object after exactly 3 calls; a non-rate-limit
failure on the first call gives null after exactly 1 call. -/
theorem gemini_retry_policy (outcome : ℕ → GeminiOutcome) (jitter : ℕ → ℚ)
    (v : Extracted) :
    (call_gemini_for_extraction true outcome jitter).2.1 ≤ 5
    ∧ (outcome 0 = .rateLimit → outcome 1 = .rateLimit → outcome 2 = .success v →
      call_gemini_for_extraction true outcome jitter
        = (some v, 3, [10 * 2 ^ 0 + jitter 0, 10 * 2 ^ 1 + jitter 1]))
    ∧ (outcome 0 = .failure →
      call_gemini_for_extraction true outcome jitter = (none, 1, []))
    ∧ ((∀ i, i < 5 → outcome i = .rateLimit) →
      call_gemini_for_extraction true outcome jitter
        = (none, 5, [10 * 2 ^ 0 + jitter 0, 10 * 2 ^ 1 + jitter 1,
            10 * 2 ^ 2 + jitter 2, 10 * 2 ^ 3 + jitter 3, 10 * 2 ^ 4 + jitter 4])) := by
  refine ⟨?_, fun h0 h1 h2 => ?_, fun h0 => ?_, fun hall => ?_⟩
  · exact geminiLoop_calls_le outcome jitter MAX_RETRIES 0
  · simp [call_gemini_for_extraction, MAX_RETRIES, geminiLoop, h0, h1, h2,
      INITIAL_BACKOFF_TIME]
  · simp [call_gemini_for_extraction, MAX_RETRIES, geminiLoop, h0]
  · have h0 := hall 0 (by omega)
    have h1 := hall 1 (by omega)
    have h2 := hall 2 (by omega)
    have h3 := hall 3 (by omega)
    have h4 := hall 4 (by omega)
    simp [call_gemini_for_extraction, MAX_RETRIES, geminiLoop, h0, h1, h2, h3, h4,
      INITIAL_BACKOFF_TIME]

/-- Witness for C3: two rate limits then a success, zero jitter — the
parsed object after exactly 3 calls with sleeps of 10 and 20 seconds. -/
theorem gemini_retry_policy_witness :
    call_gemini_for_extraction true
        (fun i => if i = 0 then .rateLimit else if i = 1 then .rateLimit
          else .success ⟨none, none⟩)
        (fun _ => 0)
      = (some ⟨none, none⟩, 3, [10 * 2 ^ 0 + 0, 10 * 2 ^ 1 + 0]) :=
  (gemini_retry_policy
      (fun i => if i = 0 then .rateLimit else if i = 1 then .rateLimit
        else .success ⟨none, none⟩)
      (fun _ => 0) ⟨none, none⟩).2.1 rfl rfl rfl

/-- C10 (code bug): the crawler's own comment says an empty caption is
stored as a single space because DynamoDB rejects empty strings, but the
`.get('caption', ' ')` default fires only when the key is absent: a
present-but-empty caption is stored as the empty string, and the
downstream extractor's truthiness check then classifies the record as
having no text.  (A genuinely absent caption does become `" "`.) -/
theorem crawler_empty_caption_bug :
    (Crawl.save_to_dynamodb
        ⟨some "mid", some "url", some "", some "ts", some 3, some 0,
          some "IMAGE"⟩ "now").caption = ""
    ∧ Crawl.storedCaption none = " "
    ∧ pyTruthyV (.str (Crawl.storedCaption (some ""))) = false := by
  refine ⟨?_, rfl, ?_⟩ <;> decide

/-- Every item built by the Instagram extractor's item literal carries
`extracted_data.get('placeName', 'N/A')` / `.get('address', 'N/A')`. -/
lemma insta_mkItem_fields (d : List (String × PyVal)) (e : Extracted) (b : ℤ)
    (now : String) (itm : Insta.Item) (h : Insta.mkItem d e b now = some itm) :
    itm.placeName = getOrNA e.placeName ∧ itm.address = getOrNA e.address
      ∧ itm.buzz = b := by
  unfold Insta.mkItem at h
  split at h
  · cases h; exact ⟨rfl, rfl, rfl⟩
  · exact absurd h (by simp)

/-- Every item built by the YouTube extractor's item literal carries
`extracted_data.get('placeName', 'N/A')` / `.get('address', 'N/A')`. -/
lemma yt_mkItem_fields (d : List (String × PyVal)) (e : Extracted) (b : ℤ)
    (itm : Yt.Item) (h : Yt.mkItem d e b = some itm) :
    itm.placeName = getOrNA e.placeName ∧ itm.address = getOrNA e.address
      ∧ itm.buzz = b := by
  unfold Yt.mkItem at h
  split at h
  · cases h; exact ⟨rfl, rfl, rfl⟩
  · exact absurd h (by simp)

/-- C5 (counterexample): when the model answers with explicit JSON nulls
(`{"placeName": null, "address": null}` — exactly what the prompt asks
for when no information is found), the Instagram extractor writes an
item whose `placeName` is null, not the `"N/A"` sentinel: the written
item can carry null in these fields. -/
theorem sentinel_substitution_counterexample :
    (Insta.save_to_target_db (fun _ => none) "now"
        [("media_id", PyVal.str "1"), ("permalink", PyVal.str "u"),
          ("caption", PyVal.str "c")]
        ⟨some none, some none⟩).map Insta.Item.placeName = some none := by
  simp [Insta.save_to_target_db, Insta.buzzCalc, Insta.mkItem, dget, pyTruthy,
    pyInt_one, getOrNA]

/-- C5 (amended): every item written by either extractor has its
`placeName`/`address` fields equal to `extracted.get(field, 'N/A')` —
the `"N/A"` sentinel is substituted exactly when the key is absent from
the extraction result, so the fields are never structurally absent, but
an explicit null answer is stored as null. -/
theorem sentinel_substitution (iso : String → Option ℚ) (now : String)
    (d : List (String × PyVal)) (e : Extracted) :
    (∀ itm, Insta.save_to_target_db iso now d e = some itm →
      itm.placeName = getOrNA e.placeName ∧ itm.address = getOrNA e.address
        ∧ (e.placeName = none → itm.placeName = some "N/A")
        ∧ (e.address = none → itm.address = some "N/A"))
    ∧ (∀ itm, Yt.save_to_semifinal_db iso d e = some itm →
      itm.placeName = getOrNA e.placeName ∧ itm.address = getOrNA e.address
        ∧ (e.placeName = none → itm.placeName = some "N/A")
        ∧ (e.address = none → itm.address = some "N/A")) := by
  constructor
  · intro itm h
    rw [Insta.save_to_target_db] at h
    rcases hb : Insta.buzzCalc iso d with _ | b
    · rw [hb] at h; exact absurd h (by simp)
    · rw [hb] at h
      simp only [Option.some_bind] at h
      obtain ⟨h1, h2, _⟩ := insta_mkItem_fields d e b now itm h
      exact ⟨h1, h2, fun hp => by rw [h1, hp, getOrNA],
        fun ha => by rw [h2, ha, getOrNA]⟩
  · intro itm h
    rw [Yt.save_to_semifinal_db] at h
    rcases hb : Yt.buzzCalc iso d with _ | b
    · rw [hb] at h; exact absurd h (by simp)
    · rw [hb] at h
      simp only [Option.some_bind] at h
      obtain ⟨h1, h2, _⟩ := yt_mkItem_fields d e b itm h
      exact ⟨h1, h2, fun hp => by rw [h1, hp, getOrNA],
        fun ha => by rw [h2, ha, getOrNA]⟩

/-- Witness for C5 (amended) on a concrete Instagram record whose
extraction result has both keys absent: the written item carries the
`"N/A"` sentinels. -/
theorem sentinel_substitution_witness :
    Insta.Item.placeName
        ⟨PyVal.str "1", "Instagram", PyVal.str "u", PyVal.str "c",
          some "N/A", some "N/A", 1, PyVal.str "now"⟩ = getOrNA none
      ∧ Insta.Item.address
        ⟨PyVal.str "1", "Instagram", PyVal.str "u", PyVal.str "c",
          some "N/A", some "N/A", 1, PyVal.str "now"⟩ = getOrNA none
      ∧ (none = (none : Option (Option String)) →
        Insta.Item.placeName
          ⟨PyVal.str "1", "Instagram", PyVal.str "u", PyVal.str "c",
            some "N/A", some "N/A", 1, PyVal.str "now"⟩ = some "N/A")
      ∧ (none = (none : Option (Option String)) →
        Insta.Item.address
          ⟨PyVal.str "1", "Instagram", PyVal.str "u", PyVal.str "c",
            some "N/A", some "N/A", 1, PyVal.str "now"⟩ = some "N/A") :=
  (sentinel_substitution (fun _ => none) "now"
      [("media_id", PyVal.str "1"), ("permalink", PyVal.str "u"),
        ("caption", PyVal.str "c")] ⟨none, none⟩).1
    ⟨PyVal.str "1", "Instagram", PyVal.str "u", PyVal.str "c",
      some "N/A", some "N/A", 1, PyVal.str "now"⟩
    (by simp [Insta.save_to_target_db, Insta.buzzCalc, Insta.mkItem, dget,
      pyTruthy, pyInt_one, getOrNA])

/-- C4 (counterexample): the Instagram extractor's unmarshaller does not
map a number-tagged value with a decimal point to a float — it applies
`int(...)` unconditionally, and `int("1.5")` raises `ValueError`, which
propagates out of the helper.  (`float("1.5")` would have been `3/2`.) -/
theorem unmarshal_number_counterexample :
    Insta.unmarshal_dynamodb_json [("duration", Attr.N "1.5")] = .error ()
    ∧ (parsePyFloat "1.5").isSome = true := by
  constructor
  · simp [Insta.unmarshal_dynamodb_json, show parsePyInt "1.5" = none from by decide]
  · decide

/-- C4 (amended): the YouTube and Geocoder unmarshallers map
string-tagged values to the string unchanged, number-tagged values to an
integer when the numeral has no decimal point and to a float otherwise,
non-empty map-tagged values recursively, and omit untagged or empty-map
values; the Instagram extractor's unmarshaller follows the same contract
except that a number-tagged value is always parsed with `int(...)`: an
integer numeral becomes an integer and a numeral with a decimal point
raises (error), never a float. -/
theorem unmarshal_contract (k : String) (rest : List (String × Attr)) :
    (∀ v, Yt.unmarshal_dynamodb_json ((k, Attr.S v) :: rest)
      = (Yt.unmarshal_dynamodb_json rest).map (fun d => (k, PyVal.str v) :: d))
    ∧ (∀ s n, s.data.contains '.' = false → parsePyInt s = some n →
      Yt.unmarshal_dynamodb_json ((k, Attr.N s) :: rest)
        = (Yt.unmarshal_dynamodb_json rest).map (fun d => (k, PyVal.int n) :: d))
    ∧ (∀ s q, s.data.contains '.' = true → parsePyFloat s = some q →
      Yt.unmarshal_dynamodb_json ((k, Attr.N s) :: rest)
        = (Yt.unmarshal_dynamodb_json rest).map (fun d => (k, PyVal.float q) :: d))
    ∧ (∀ m inner, m ≠ [] → Yt.unmarshal_dynamodb_json m = .ok inner →
      Yt.unmarshal_dynamodb_json ((k, Attr.M m) :: rest)
        = (Yt.unmarshal_dynamodb_json rest).map (fun d => (k, PyVal.dict inner) :: d))
    ∧ (Yt.unmarshal_dynamodb_json ((k, Attr.untagged) :: rest)
      = Yt.unmarshal_dynamodb_json rest)
    ∧ (Yt.unmarshal_dynamodb_json ((k, Attr.M []) :: rest)
      = Yt.unmarshal_dynamodb_json rest)
    ∧ (∀ v, Geo.unmarshal_dynamodb_json ((k, Attr.S v) :: rest)
      = (Geo.unmarshal_dynamodb_json rest).map (fun d => (k, PyVal.str v) :: d))
    ∧ (∀ s n, s.data.contains '.' = false → parsePyInt s = some n →
      Geo.unmarshal_dynamodb_json ((k, Attr.N s) :: rest)
        = (Geo.unmarshal_dynamodb_json rest).map (fun d => (k, PyVal.int n) :: d))
    ∧ (∀ s q, s.data.contains '.' = true → parsePyFloat s = some q →
      Geo.unmarshal_dynamodb_json ((k, Attr.N s) :: rest)
        = (Geo.unmarshal_dynamodb_json rest).map (fun d => (k, PyVal.float q) :: d))
    ∧ (∀ m inner, m ≠ [] → Geo.unmarshal_dynamodb_json m = .ok inner →
      Geo.unmarshal_dynamodb_json ((k, Attr.M m) :: rest)
        = (Geo.unmarshal_dynamodb_json rest).map (fun d => (k, PyVal.dict inner) :: d))
    ∧ (Geo.unmarshal_dynamodb_json ((k, Attr.untagged) :: rest)
      = Geo.unmarshal_dynamodb_json rest)
    ∧ (Geo.unmarshal_dynamodb_json ((k, Attr.M []) :: rest)
      = Geo.unmarshal_dynamodb_json rest)
    ∧ (∀ v, Insta.unmarshal_dynamodb_json ((k, Attr.S v) :: rest)
      = (Insta.unmarshal_dynamodb_json rest).map (fun d => (k, PyVal.str v) :: d))
    ∧ (∀ s n, parsePyInt s = some n →
      Insta.unmarshal_dynamodb_json ((k, Attr.N s) :: rest)
        = (Insta.unmarshal_dynamodb_json rest).map (fun d => (k, PyVal.int n) :: d))
    ∧ (∀ s, parsePyInt s = none →
      Insta.unmarshal_dynamodb_json ((k, Attr.N s) :: rest) = .error ())
    ∧ (∀ m inner, m ≠ [] → Insta.unmarshal_dynamodb_json m = .ok inner →
      Insta.unmarshal_dynamodb_json ((k, Attr.M m) :: rest)
        = (Insta.unmarshal_dynamodb_json rest).map (fun d => (k, PyVal.dict inner) :: d))
    ∧ (Insta.unmarshal_dynamodb_json ((k, Attr.untagged) :: rest)
      = Insta.unmarshal_dynamodb_json rest)
    ∧ (Insta.unmarshal_dynamodb_json ((k, Attr.M []) :: rest)
      = Insta.unmarshal_dynamodb_json rest) := by
  refine ⟨fun v => ?_, fun s n hc hn => ?_, fun s q hc hq => ?_,
    fun m inner hm hmok => ?_, ?_, ?_,
    fun v => ?_, fun s n hc hn => ?_, fun s q hc hq => ?_,
    fun m inner hm hmok => ?_, ?_, ?_,
    fun v => ?_, fun s n hn => ?_, fun s hn => ?_,
    fun m inner hm hmok => ?_, ?_, ?_⟩
  case _ =>
    rcases hr : Yt.unmarshal_dynamodb_json rest with e | dd <;>
      simp [Yt.unmarshal_dynamodb_json, hr, Except.map]
  case _ =>
    rcases hr : Yt.unmarshal_dynamodb_json rest with e | dd <;>
      simp [Yt.unmarshal_dynamodb_json, hr, hc, hn, Except.map] <;>
      exact fun hmem => absurd hmem (by simpa using hc)
  case _ =>
    rcases hr : Yt.unmarshal_dynamodb_json rest with e | dd <;>
      simp [Yt.unmarshal_dynamodb_json, hr, hc, hq, Except.map] <;>
      exact fun hmem => absurd (by simpa using hc) hmem
  case _ =>
    have hne : m.isEmpty = false := by
      cases m with
      | nil => exact absurd rfl hm
      | cons a as => rfl
    rcases hr : Yt.unmarshal_dynamodb_json rest with e | dd <;>
      simp [Yt.unmarshal_dynamodb_json, hr, hne, hmok, Except.map]
  case _ => simp [Yt.unmarshal_dynamodb_json]
  case _ => simp [Yt.unmarshal_dynamodb_json]
  case _ =>
    rcases hr : Geo.unmarshal_dynamodb_json rest with e | dd <;>
      simp [Geo.unmarshal_dynamodb_json, hr, Except.map]
  case _ =>
    rcases hr : Geo.unmarshal_dynamodb_json rest with e | dd <;>
      simp [Geo.unmarshal_dynamodb_json, hr, hc, hn, Except.map] <;>
      exact fun hmem => absurd hmem (by simpa using hc)
  case _ =>
    rcases hr : Geo.unmarshal_dynamodb_json rest with e | dd <;>
      simp [Geo.unmarshal_dynamodb_json, hr, hc, hq, Except.map] <;>
      exact fun hmem => absurd (by simpa using hc) hmem
  case _ =>
    have hne : m.isEmpty = false := by
      cases m with
      | nil => exact absurd rfl hm
      | cons a as => rfl
    rcases hr : Geo.unmarshal_dynamodb_json rest with e | dd <;>
      simp [Geo.unmarshal_dynamodb_json, hr, hne, hmok, Except.map]
  case _ => simp [Geo.unmarshal_dynamodb_json]
  case _ => simp [Geo.unmarshal_dynamodb_json]
  case _ =>
    rcases hr : Insta.unmarshal_dynamodb_json rest with e | dd <;>
      simp [Insta.unmarshal_dynamodb_json, hr, Except.map]
  case _ =>
    rcases hr : Insta.unmarshal_dynamodb_json rest with e | dd <;>
      simp [Insta.unmarshal_dynamodb_json, hr, hn, Except.map]
  case _ => simp [Insta.unmarshal_dynamodb_json, hn]
  case _ =>
    have hne : m.isEmpty = false := by
      cases m with
      | nil => exact absurd rfl hm
      | cons a as => rfl
    rcases hr : Insta.unmarshal_dynamodb_json rest with e | dd <;>
      simp [Insta.unmarshal_dynamodb_json, hr, hne, hmok, Except.map]
  case _ => simp [Insta.unmarshal_dynamodb_json]
  case _ => simp [Insta.unmarshal_dynamodb_json]

/-- Witness for C4 (amended): a number-tagged `"42"` becomes the integer
42 under the YouTube unmarshaller. -/
theorem unmarshal_contract_witness :
    Yt.unmarshal_dynamodb_json [("like_count", Attr.N "42")]
      = (Yt.unmarshal_dynamodb_json []).map
        (fun d => ("like_count", PyVal.int 42) :: d) :=
  (unmarshal_contract "like_count" []).2.1 "42" 42 (by decide) (by decide)

/-- A non-empty string is truthy. -/
lemma isEmpty_false_of_ne {s : String} (h : s ≠ "") : s.isEmpty = false := by
  cases he : s.isEmpty
  · rfl
  · exact absurd ((String.isEmpty_iff s).mp he) h

/-- The Instagram buzz computation when both timestamps are present,
truthy and parse, and `like_count` is an integer. -/
lemma insta_buzzCalc_formula (iso : String → Option ℚ)
    (d : List (String × PyVal)) (ts cs : String) (tq cq : ℚ) (likes : ℤ)
    (hts : dget d "timestamp" = some (.str ts)) (hts' : ts ≠ "")
    (hcs : dget d "crawled_at" = some (.str cs)) (hcs' : cs ≠ "")
    (hit : iso ts = some tq) (hic : iso cs = some cq)
    (hlk : dget d "like_count" = some (.int likes)) :
    Insta.buzzCalc iso d
      = some (specInstaBuzz (likes : ℚ) ((cq - tq) / 86400)) := by
  rw [Insta.buzzCalc]
  simp only [hts, hcs, hit, hic, hlk, pyTruthy, pyTruthyV,
    isEmpty_false_of_ne hts', isEmpty_false_of_ne hcs', Bool.not_false,
    Bool.and_self, if_true, Option.elim_some, pyNum]
  rw [specInstaBuzz, floor_ite_eq_max, clamp_max_min]
  norm_num

/-- The Instagram buzz computation when the post timestamp is missing. -/
lemma insta_buzzCalc_missing (iso : String → Option ℚ)
    (d : List (String × PyVal)) (hts : dget d "timestamp" = none) :
    Insta.buzzCalc iso d = some 1 := by
  rw [Insta.buzzCalc]
  simp [hts, pyTruthy, pyInt_one]

/-- The Instagram buzz computation when the crawl timestamp is missing. -/
lemma insta_buzzCalc_missing_crawl (iso : String → Option ℚ)
    (d : List (String × PyVal)) (hcs : dget d "crawled_at" = none) :
    Insta.buzzCalc iso d = some 1 := by
  rw [Insta.buzzCalc]
  simp [hcs, pyTruthy, pyInt_one]

/-- The Instagram item literal succeeds when the three directly indexed
keys are present. -/
lemma insta_mkItem_some (d : List (String × PyVal)) (e : Extracted) (b : ℤ)
    (now : String) (mid url cap : PyVal)
    (hmid : dget d "media_id" = some mid) (hurl : dget d "permalink" = some url)
    (hcap : dget d "caption" = some cap) :
    Insta.mkItem d e b now
      = some ⟨mid, "Instagram", url, cap, getOrNA e.placeName,
          getOrNA e.address, b, .str now⟩ := by
  rw [Insta.mkItem, hmid, hurl, hcap]

/-- C1: for a raw Instagram post carrying its required fields, with both
timestamps present (non-empty ISO strings parsing to epoch seconds `tq`
and `cq`), the written buzz is
`int(clamp(likeCount / max(0.01, elapsedDays) / 100, 1, 5))` with
`elapsedDays = (cq - tq) / 86400`; with the post timestamp missing the
written buzz is 1.  The spec's two examples: `likeCount=500,
elapsedDays=1 → buzz=5` and `likeCount=10, elapsedDays=10 → buzz=1`. -/
theorem insta_buzz_score (iso : String → Option ℚ) (now : String)
    (d : List (String × PyVal)) (e : Extracted) :
    specInstaBuzz 500 1 = 5 ∧ specInstaBuzz 10 10 = 1
    ∧ (∀ ts cs tq cq (likes : ℤ) mid url cap,
      dget d "media_id" = some mid → dget d "permalink" = some url →
      dget d "caption" = some cap →
      dget d "timestamp" = some (.str ts) → ts ≠ "" →
      dget d "crawled_at" = some (.str cs) → cs ≠ "" →
      iso ts = some tq → iso cs = some cq →
      dget d "like_count" = some (.int likes) →
      (Insta.save_to_target_db iso now d e).map Insta.Item.buzz
        = some (specInstaBuzz (likes : ℚ) ((cq - tq) / 86400)))
    ∧ (∀ mid url cap,
      dget d "media_id" = some mid → dget d "permalink" = some url →
      dget d "caption" = some cap → dget d "timestamp" = none →
      (Insta.save_to_target_db iso now d e).map Insta.Item.buzz = some 1)
    ∧ (∀ mid url cap,
      dget d "media_id" = some mid → dget d "permalink" = some url →
      dget d "caption" = some cap → dget d "crawled_at" = none →
      (Insta.save_to_target_db iso now d e).map Insta.Item.buzz = some 1) := by
  refine ⟨?_, ?_, ?_, ?_, ?_⟩
  · norm_num [specInstaBuzz, specClamp, pyInt]
  · norm_num [specInstaBuzz, specClamp, pyInt]
  · intro ts cs tq cq likes mid url cap hmid hurl hcap hts hts' hcs hcs' hit hic hlk
    rw [Insta.save_to_target_db,
      insta_buzzCalc_formula iso d ts cs tq cq likes hts hts' hcs hcs' hit hic hlk,
      Option.some_bind, insta_mkItem_some d e _ now mid url cap hmid hurl hcap]
    rfl
  · intro mid url cap hmid hurl hcap hts
    rw [Insta.save_to_target_db, insta_buzzCalc_missing iso d hts,
      Option.some_bind, insta_mkItem_some d e _ now mid url cap hmid hurl hcap]
    rfl
  · intro mid url cap hmid hurl hcap hcs
    rw [Insta.save_to_target_db, insta_buzzCalc_missing_crawl iso d hcs,
      Option.some_bind, insta_mkItem_some d e _ now mid url cap hmid hurl hcap]
    rfl

/-- Witness for C1 on a concrete record: 500 likes, one elapsed day. -/
theorem insta_buzz_score_witness :
    (Insta.save_to_target_db (fun s => if s = "C" then some 86400 else some 0)
        "now"
        [("media_id", PyVal.str "m"), ("permalink", PyVal.str "u"),
          ("caption", PyVal.str "x"), ("timestamp", PyVal.str "T"),
          ("crawled_at", PyVal.str "C"), ("like_count", PyVal.int 500)]
        ⟨none, none⟩).map Insta.Item.buzz
      = some (specInstaBuzz ((500 : ℤ) : ℚ) ((86400 - 0) / 86400)) :=
  (insta_buzz_score (fun s => if s = "C" then some 86400 else some 0) "now"
      [("media_id", PyVal.str "m"), ("permalink", PyVal.str "u"),
        ("caption", PyVal.str "x"), ("timestamp", PyVal.str "T"),
        ("crawled_at", PyVal.str "C"), ("like_count", PyVal.int 500)]
      ⟨none, none⟩).2.2.1
    "T" "C" 0 86400 500 (PyVal.str "m") (PyVal.str "u") (PyVal.str "x")
    rfl rfl rfl rfl (by decide) rfl (by decide) (by decide) (by decide) rfl

/-- The YouTube buzz computation when everything is present, truthy,
parses, and the subscriber count is positive. -/
lemma yt_buzzCalc_formula (iso : String → Option ℚ)
    (d : List (String × PyVal)) (ps cs : String) (pq cq : ℚ)
    (subs views : ℤ)
    (hps : dget d "published_at" = some (.str ps)) (hps' : ps ≠ "")
    (hcs : dget d "crawled_at" = some (.str cs)) (hcs' : cs ≠ "")
    (hsub : dget d "subscriber_count" = some (.int subs))
    (hpos : (0 : ℚ) < (subs : ℚ))
    (hv : dget d "views" = some (.int views))
    (hic : iso cs = some cq) (hip : iso ps = some pq) :
    Yt.buzzCalc iso d
      = some (specYtBuzz (views : ℚ) (subs : ℚ) ((cq - pq) / 3600)) := by
  rw [Yt.buzzCalc]
  simp only [hps, hcs, hsub, hv, hic, hip, pyTruthy, pyTruthyV,
    isEmpty_false_of_ne hps', isEmpty_false_of_ne hcs', Bool.not_false,
    Bool.and_self, if_true, Option.elim_some, pyNum, hpos, if_pos]
  rw [specYtBuzz, floor_ite_eq_max, clamp_max_min]

/-- The YouTube buzz computation when the published timestamp is
missing. -/
lemma yt_buzzCalc_missing (iso : String → Option ℚ)
    (d : List (String × PyVal)) (hps : dget d "published_at" = none) :
    Yt.buzzCalc iso d = some 1 := by
  rw [Yt.buzzCalc]
  simp [hps, pyTruthy, pyInt_one]

/-- The YouTube buzz computation when the subscriber count is not
positive (timestamps truthy). -/
lemma yt_buzzCalc_nonpos (iso : String → Option ℚ)
    (d : List (String × PyVal)) (ps cs : String) (subs : ℤ)
    (hps : dget d "published_at" = some (.str ps)) (hps' : ps ≠ "")
    (hcs : dget d "crawled_at" = some (.str cs)) (hcs' : cs ≠ "")
    (hsub : dget d "subscriber_count" = some (.int subs))
    (hnp : ¬ ((0 : ℚ) < (subs : ℚ))) :
    Yt.buzzCalc iso d = some 1 := by
  rw [Yt.buzzCalc]
  simp only [hps, hcs, hsub, pyTruthy, pyTruthyV,
    isEmpty_false_of_ne hps', isEmpty_false_of_ne hcs', Bool.not_false,
    Bool.and_self, if_true, Option.elim_some, pyNum, hnp, if_false, pyInt_one]

/-- The YouTube item literal succeeds when the four directly indexed
keys are present. -/
lemma yt_mkItem_some (d : List (String × PyVal)) (e : Extracted) (b : ℤ)
    (vid url title cr : PyVal)
    (hvid : dget d "videoId" = some vid) (hurl : dget d "url" = some url)
    (htit : dget d "title" = some title)
    (hcr : dget d "crawled_at" = some cr) :
    Yt.mkItem d e b
      = some ⟨vid, "Youtube", url, title, getOrNA e.placeName,
          getOrNA e.address, b, cr⟩ := by
  rw [Yt.mkItem, hvid, hurl, htit, hcr]

/-- The YouTube item literal raises `KeyError` on `fetchedAt` when
`crawled_at` is absent — nothing is written. -/
lemma yt_mkItem_none (d : List (String × PyVal)) (e : Extracted) (b : ℤ)
    (hcr : dget d "crawled_at" = none) : Yt.mkItem d e b = none := by
  rw [Yt.mkItem]
  split
  · rename_i h
    rw [hcr] at h
    exact absurd h (by simp)
  · rfl

/-- C2 (counterexample): a raw video record with `crawled_at` missing
(one of the two timestamps) but everything else present: the claim says
an item with `buzz = 1` is written, but the code's `fetchedAt:
original_data['crawled_at']` raises `KeyError` and nothing is written. -/
theorem yt_buzz_missing_crawl_counterexample :
    Yt.save_to_semifinal_db (fun _ => some 0)
        [("videoId", PyVal.str "v"), ("url", PyVal.str "u"),
          ("title", PyVal.str "t"), ("published_at", PyVal.str "P"),
          ("subscriber_count", PyVal.int 100), ("views", PyVal.int 1000)]
        ⟨none, none⟩
      = none := by
  rw [Yt.save_to_semifinal_db]
  rcases hb : Yt.buzzCalc (fun _ => some 0)
      [("videoId", PyVal.str "v"), ("url", PyVal.str "u"),
        ("title", PyVal.str "t"), ("published_at", PyVal.str "P"),
        ("subscriber_count", PyVal.int 100), ("views", PyVal.int 1000)] with _ | b
  · rfl
  · rw [Option.some_bind]
    exact yt_mkItem_none _ _ _ rfl

/-- C2 (amended): for a raw video carrying `videoId`/`url`/`title` and
`crawled_at`, the written buzz is
`int(clamp(100 * views / (subs * max(1, elapsedHours)), 1, 5))` with
`elapsedHours = (cq - pq) / 3600` when both timestamps are present and
the subscriber count is positive, and 1 when `published_at` is missing
or the subscriber count is not positive; when `crawled_at` is missing,
no record is written at all.  The spec's two examples: `views=1000,
subscribers=100, elapsedHours=2 → buzz=5`; `views=1, subscribers=1000,
elapsedHours=1 → buzz=1`. -/
theorem yt_buzz_score (iso : String → Option ℚ)
    (d : List (String × PyVal)) (e : Extracted) :
    specYtBuzz 1000 100 2 = 5 ∧ specYtBuzz 1 1000 1 = 1
    ∧ (∀ ps cs pq cq (subs views : ℤ) vid url title cr,
      dget d "videoId" = some vid → dget d "url" = some url →
      dget d "title" = some title → dget d "crawled_at" = some cr →
      dget d "published_at" = some (.str ps) → ps ≠ "" →
      cr = .str cs → cs ≠ "" →
      dget d "subscriber_count" = some (.int subs) → (0 : ℚ) < (subs : ℚ) →
      dget d "views" = some (.int views) →
      iso cs = some cq → iso ps = some pq →
      (Yt.save_to_semifinal_db iso d e).map Yt.Item.buzz
        = some (specYtBuzz (views : ℚ) (subs : ℚ) ((cq - pq) / 3600)))
    ∧ (∀ vid url title cr,
      dget d "videoId" = some vid → dget d "url" = some url →
      dget d "title" = some title → dget d "crawled_at" = some cr →
      dget d "published_at" = none →
      (Yt.save_to_semifinal_db iso d e).map Yt.Item.buzz = some 1)
    ∧ (∀ ps cs (subs : ℤ) vid url title cr,
      dget d "videoId" = some vid → dget d "url" = some url →
      dget d "title" = some title → dget d "crawled_at" = some cr →
      dget d "published_at" = some (.str ps) → ps ≠ "" →
      cr = .str cs → cs ≠ "" →
      dget d "subscriber_count" = some (.int subs) → ¬ ((0 : ℚ) < (subs : ℚ)) →
      (Yt.save_to_semifinal_db iso d e).map Yt.Item.buzz = some 1)
    ∧ (dget d "crawled_at" = none → Yt.save_to_semifinal_db iso d e = none) := by
  refine ⟨?_, ?_, ?_, ?_, ?_, ?_⟩
  · norm_num [specYtBuzz, specClamp, pyInt]
  · norm_num [specYtBuzz, specClamp, pyInt]
  · intro ps cs pq cq subs views vid url title cr
      hvid hurl htit hcr hps hps' hcrs hcs' hsub hpos hv hic hip
    rw [Yt.save_to_semifinal_db,
      yt_buzzCalc_formula iso d ps cs pq cq subs views hps hps'
        (hcrs ▸ hcr) hcs' hsub hpos hv hic hip,
      Option.some_bind, yt_mkItem_some d e _ vid url title cr hvid hurl htit hcr]
    rfl
  · intro vid url title cr hvid hurl htit hcr hps
    rw [Yt.save_to_semifinal_db, yt_buzzCalc_missing iso d hps,
      Option.some_bind, yt_mkItem_some d e _ vid url title cr hvid hurl htit hcr]
    rfl
  · intro ps cs subs vid url title cr hvid hurl htit hcr hps hps' hcrs hcs' hsub hnp
    rw [Yt.save_to_semifinal_db,
      yt_buzzCalc_nonpos iso d ps cs subs hps hps' (hcrs ▸ hcr) hcs' hsub hnp,
      Option.some_bind, yt_mkItem_some d e _ vid url title cr hvid hurl htit hcr]
    rfl
  · intro hcr
    rw [Yt.save_to_semifinal_db]
    rcases hb : Yt.buzzCalc iso d with _ | b
    · rfl
    · rw [Option.some_bind]
      exact yt_mkItem_none d e b hcr

/-- Witness for C2 on a concrete record: 1000 views, 100 subscribers,
two elapsed hours. -/
theorem yt_buzz_score_witness :
    (Yt.save_to_semifinal_db (fun s => if s = "C" then some 7200 else some 0)
        [("videoId", PyVal.str "v"), ("url", PyVal.str "u"),
          ("title", PyVal.str "t"), ("crawled_at", PyVal.str "C"),
          ("published_at", PyVal.str "P"),
          ("subscriber_count", PyVal.int 100), ("views", PyVal.int 1000)]
        ⟨none, none⟩).map Yt.Item.buzz
      = some (specYtBuzz ((1000 : ℤ) : ℚ) ((100 : ℤ) : ℚ) ((7200 - 0) / 3600)) :=
  (yt_buzz_score (fun s => if s = "C" then some 7200 else some 0)
      [("videoId", PyVal.str "v"), ("url", PyVal.str "u"),
        ("title", PyVal.str "t"), ("crawled_at", PyVal.str "C"),
        ("published_at", PyVal.str "P"),
        ("subscriber_count", PyVal.int 100), ("views", PyVal.int 1000)]
      ⟨none, none⟩).2.2.1
    "P" "C" 0 7200 100 1000 (PyVal.str "v") (PyVal.str "u") (PyVal.str "t")
    (PyVal.str "C") rfl rfl rfl rfl rfl (by decide) rfl (by decide) rfl
    (by norm_num) rfl (by decide) (by decide)

/-- The YouTube item literal raises `KeyError` on `postId` when
`videoId` is absent — nothing is written. -/
lemma yt_mkItem_none_vid (d : List (String × PyVal)) (e : Extracted) (b : ℤ)
    (hvid : dget d "videoId" = none) : Yt.mkItem d e b = none := by
  rw [Yt.mkItem]
  split
  · rename_i h _ _ _
    rw [hvid] at h
    exact absurd h (by simp)
  · rfl

/-- With `videoId` absent the YouTube save never writes. -/
lemma yt_save_none_vid (iso : String → Option ℚ) (d : List (String × PyVal))
    (e : Extracted) (hvid : dget d "videoId" = none) :
    Yt.save_to_semifinal_db iso d e = none := by
  rw [Yt.save_to_semifinal_db]
  rcases hb : Yt.buzzCalc iso d with _ | b
  · rfl
  · rw [Option.some_bind]
    exact yt_mkItem_none_vid d e b hvid

/-- C9 (counterexample): a YouTube change record whose image lacks
`videoId`, `title` and `description` entirely — the claim says the
extractor skips it with no inference call, but the extractor calls the
model once (on the empty-defaults prompt) and only the write is
suppressed. -/
theorem required_field_skip_counterexample :
    Yt.processRecord (fun _ => some ⟨none, none⟩) (fun _ => some 0)
        ⟨"INSERT", []⟩ = .ok (1, none)
    ∧ Yt.processRecord (fun _ => some ⟨none, none⟩) (fun _ => some 0)
        ⟨"INSERT", []⟩ ≠ .ok (0, none) := by
  have h : Yt.processRecord (fun _ => some ⟨none, none⟩) (fun _ => some 0)
      ⟨"INSERT", []⟩ = .ok (1, none) := by
    simp [Yt.processRecord, Yt.unmarshal_dynamodb_json, Yt.save_to_semifinal_db,
      Yt.buzzCalc, Yt.mkItem, dget, pyTruthy, pyStr]
  exact ⟨h, by simp [h]⟩

/-- C9 (amended): the Instagram extractor skips a record whose
unmarshalled image lacks a truthy `media_id` or `caption` — no inference
call, no write, and the batch continues unchanged.  The YouTube
extractor instead always makes exactly one inference call per
`INSERT`/`MODIFY` record (its prompt defaults missing `title`/
`description` to empty strings); a missing `videoId` only suppresses the
write, at the save stage, without raising. -/
theorem required_field_skip (gem : String → Option Extracted)
    (iso : String → Option ℚ) (now : String) (r : StreamRecord)
    (d : List (String × PyVal)) :
    ((r.eventName = "INSERT" ∨ r.eventName = "MODIFY") →
      Insta.unmarshal_dynamodb_json r.newImage = .ok d →
      (pyTruthy (dget d "media_id") = false
        ∨ pyTruthy (dget d "caption") = false) →
      Insta.processRecord gem iso now r = .ok (0, none)
      ∧ ∀ rest, Insta.lambda_handler gem iso now (r :: rest)
          = Insta.lambda_handler gem iso now rest)
    ∧ ((r.eventName = "INSERT" ∨ r.eventName = "MODIFY") →
      Yt.unmarshal_dynamodb_json r.newImage = .ok d →
      (Yt.processRecord gem iso r).map Prod.fst = .ok 1
      ∧ (dget d "videoId" = none →
        Yt.processRecord gem iso r = .ok (1, none))) := by
  constructor
  · intro hev hum hskip
    have heb : (r.eventName == "INSERT" || r.eventName == "MODIFY") = true := by
      rcases hev with h | h <;> simp [h]
    have hguard : (pyTruthy (dget d "media_id")
        && pyTruthy (dget d "caption")) = false := by
      rcases hskip with h | h <;> simp [h]
    have hpr : Insta.processRecord gem iso now r = .ok (0, none) := by
      rw [Insta.processRecord, if_pos heb, hum]
      simp only [hguard, Bool.false_eq_true, if_false]
    refine ⟨hpr, fun rest => ?_⟩
    rw [Insta.lambda_handler, hpr]
    rcases hh : Insta.lambda_handler gem iso now rest with e | q
    · rfl
    · simp
  · intro hev hum
    have heb : (r.eventName == "INSERT" || r.eventName == "MODIFY") = true := by
      rcases hev with h | h <;> simp [h]
    constructor
    · rw [Yt.processRecord, if_pos heb, hum]
      dsimp only
      rcases gem ("Title: " ++ pyStr ((dget d "title").getD (.str ""))
          ++ "\n" ++ "Description: "
          ++ pyStr ((dget d "description").getD (.str ""))) with _ | e <;>
        rfl
    · intro hvid
      rw [Yt.processRecord, if_pos heb, hum]
      dsimp only
      rcases gem ("Title: " ++ pyStr ((dget d "title").getD (.str ""))
          ++ "\n" ++ "Description: "
          ++ pyStr ((dget d "description").getD (.str ""))) with _ | e
      · rfl
      · dsimp only
        rw [yt_save_none_vid iso d e hvid]

/-- Witness for C9 (amended): an Instagram record with an empty caption
is skipped with zero inference calls, and a YouTube record missing its
`videoId` still costs one inference call. -/
theorem required_field_skip_witness :
    (Insta.processRecord (fun _ => some ⟨none, none⟩) (fun _ => some 0) "now"
        ⟨"INSERT", [("media_id", Attr.S "m"), ("caption", Attr.S "")]⟩
      = .ok (0, none)
      ∧ ∀ rest, Insta.lambda_handler (fun _ => some ⟨none, none⟩)
          (fun _ => some 0) "now"
          (⟨"INSERT", [("media_id", Attr.S "m"), ("caption", Attr.S "")]⟩ :: rest)
        = Insta.lambda_handler (fun _ => some ⟨none, none⟩)
          (fun _ => some 0) "now" rest) :=
  (required_field_skip (fun _ => some ⟨none, none⟩) (fun _ => some 0) "now"
      ⟨"INSERT", [("media_id", Attr.S "m"), ("caption", Attr.S "")]⟩
      [("media_id", PyVal.str "m"), ("caption", PyVal.str "")]).1
    (Or.inl rfl)
    (by simp [Insta.unmarshal_dynamodb_json])
    (Or.inr (by decide))

/-- The FinalDB item literal succeeds when the five directly indexed
keys are present. -/
lemma geo_save_some (d : List (String × PyVal)) (coords : Geo.Coords)
    (pid plat url title fet : PyVal)
    (hpid : dget d "postId" = some pid) (hplat : dget d "platform" = some plat)
    (hurl : dget d "url" = some url) (htit : dget d "title" = some title)
    (hfet : dget d "fetchedAt" = some fet) :
    Geo.save_to_final_db d coords
      = some ⟨pid, plat, url, title, fet,
          (dget d "placeName").getD (.str "N/A"),
          (dget d "address").getD (.str "N/A"),
          coords.lat, coords.lng, (dget d "buzz").getD (.int 0)⟩ := by
  rw [Geo.save_to_final_db, hpid, hplat, hurl, htit, hfet]

/-- C6: for an intermediate-store change record carrying the SemifinalDB
shape (truthy `postId`, the five directly indexed fields present), a
FinalRecord is written if and only if `geocode_address` returns
coordinates for the record's address — absent, falsy, sentinel or
ungeocodable addresses write nothing — and any written record carries
exactly the returned coordinates, never missing or null ones. -/
theorem geo_write_policy (cfg : Geo.GeoCfg) (provider : PyVal → Geo.ProviderResp)
    (r : StreamRecord) (d : List (String × PyVal))
    (pid plat url title fet : PyVal) :
    (r.eventName = "INSERT" ∨ r.eventName = "MODIFY") →
    Geo.unmarshal_dynamodb_json r.newImage = .ok d →
    dget d "postId" = some pid → pyTruthyV pid = true →
    dget d "platform" = some plat → dget d "url" = some url →
    dget d "title" = some title → dget d "fetchedAt" = some fet →
    ((∃ itm, Geo.processRecord cfg provider r = .ok (some itm))
      ↔ (∃ a c, dget d "address" = some a
          ∧ (Geo.geocode_address cfg provider a).1 = some c))
    ∧ (∀ itm a c, Geo.processRecord cfg provider r = .ok (some itm) →
        dget d "address" = some a →
        (Geo.geocode_address cfg provider a).1 = some c →
        itm.lat = c.lat ∧ itm.lng = c.lng) := by
  intro hev hum hpid hpidT hplat hurl htit hfet
  have heb : (r.eventName == "INSERT" || r.eventName == "MODIFY") = true := by
    rcases hev with h | h <;> simp [h]
  rw [Geo.processRecord, if_pos heb, hum]
  dsimp only
  rcases haddr : dget d "address" with _ | a
  · simp [pyTruthy]
  · cases htr : pyTruthyV a
    · have hge : Geo.geocode_address cfg provider a = (none, 0) := by
        rw [Geo.geocode_address, if_pos (by simp [htr])]
      simp [pyTruthy, htr, hge]
    · cases hsent : Geo.isNullSentinel a
      · simp only [hpid, pyTruthy, hpidT, htr, Geo.inNullList, hsent,
          Bool.not_false, Bool.and_self, Bool.true_and, Bool.and_true, if_true]
        rcases hg : (Geo.geocode_address cfg provider a).1 with _ | coords
        · simp [hg]
        · dsimp only
          rw [geo_save_some d coords pid plat url title fet hpid hplat hurl
            htit hfet]
          constructor
          · constructor
            · intro _
              exact ⟨a, coords, rfl, hg⟩
            · intro _
              exact ⟨_, rfl⟩
          · intro itm a' c h ha hc
            injection ha with ha1
            subst ha1
            rw [hg] at hc
            injection hc with hc1
            subst hc1
            injection h with h1
            injection h1 with h2
            subst h2
            exact ⟨rfl, rfl⟩
      · have hge : Geo.geocode_address cfg provider a = (none, 0) := by
          rw [Geo.geocode_address, if_pos (by simp [hsent])]
        simp [pyTruthy, htr, hsent, Geo.inNullList, hge]

/-- Witness for C6: a concrete SemifinalDB record with address
`"Tokyo"`, the provider returning the single point `[1, 2]` — the written
item carries `lng = 1`, `lat = 2`. -/
theorem geo_write_policy_witness :
    Geo.FinalItem.lat
        ⟨PyVal.str "p", PyVal.str "Instagram", PyVal.str "u", PyVal.str "t",
          PyVal.str "f", PyVal.str "N/A", PyVal.str "Tokyo", 2, 1, PyVal.int 0⟩
      = Geo.Coords.lat ⟨1, 2⟩
    ∧ Geo.FinalItem.lng
        ⟨PyVal.str "p", PyVal.str "Instagram", PyVal.str "u", PyVal.str "t",
          PyVal.str "f", PyVal.str "N/A", PyVal.str "Tokyo", 2, 1, PyVal.int 0⟩
      = Geo.Coords.lng ⟨1, 2⟩ :=
  (geo_write_policy ⟨true, true⟩ (fun _ => .ok [[1, 2]])
      ⟨"INSERT", [("postId", Attr.S "p"), ("platform", Attr.S "Instagram"),
        ("url", Attr.S "u"), ("title", Attr.S "t"), ("fetchedAt", Attr.S "f"),
        ("address", Attr.S "Tokyo")]⟩
      [("postId", PyVal.str "p"), ("platform", PyVal.str "Instagram"),
        ("url", PyVal.str "u"), ("title", PyVal.str "t"),
        ("fetchedAt", PyVal.str "f"), ("address", PyVal.str "Tokyo")]
      (PyVal.str "p") (PyVal.str "Instagram") (PyVal.str "u") (PyVal.str "t")
      (PyVal.str "f")
      (Or.inl rfl) (by simp [Geo.unmarshal_dynamodb_json]) rfl (by decide)
      rfl rfl rfl rfl).2
    ⟨PyVal.str "p", PyVal.str "Instagram", PyVal.str "u", PyVal.str "t",
      PyVal.str "f", PyVal.str "N/A", PyVal.str "Tokyo", 2, 1, PyVal.int 0⟩
    (PyVal.str "Tokyo") ⟨1, 2⟩
    (by
      rw [Geo.processRecord, if_pos (by decide),
        show Geo.unmarshal_dynamodb_json
            [("postId", Attr.S "p"), ("platform", Attr.S "Instagram"),
              ("url", Attr.S "u"), ("title", Attr.S "t"),
              ("fetchedAt", Attr.S "f"), ("address", Attr.S "Tokyo")]
          = .ok [("postId", PyVal.str "p"), ("platform", PyVal.str "Instagram"),
              ("url", PyVal.str "u"), ("title", PyVal.str "t"),
              ("fetchedAt", PyVal.str "f"), ("address", PyVal.str "Tokyo")]
          from by simp [Geo.unmarshal_dynamodb_json]]
      rfl)
    rfl
    (by
      rw [Geo.geocode_address, if_neg (by decide)]
      rfl)

end BuzzMap
